import Mathlib

/-!
Shallow embedding of the Call multiplexer (`src/webrtc/call/call.cc`,
class `webrtc::internal::Call`) and of the receive-side RTX handling
(`src/webrtc/video_engine/vie_receiver.cc`, class `ViEReceiver`).

Registries (C++ `std::map` / `std::set`) are modelled as association
lists / lists; stream objects are modelled by an id together with the
configuration the Call reads from them; external collaborators
(stream `DeliverRtp`/`DeliverRtcp` acceptance, the RTCP classifier,
the payload registry, `GetRtpStates`) are passed in as parameters.
Observable side effects (network-state notifications, packet handoff
to a stream, congestion-controller reconfiguration, sync-channel
binding) are recorded as an event trace returned next to the new state.
-/

namespace WebrtcCall

abbrev Ssrc := Nat

abbrev StreamId := Nat

inductive MediaType
  | any
  | audio
  | video
deriving DecidableEq, Repr

inductive DeliveryStatus
  | ok
  | packetError
  | unknownSsrc
deriving DecidableEq, Repr

inductive NetworkState
  | up
  | down
deriving DecidableEq, Repr

/-- Opaque per-SSRC RTP suspension state (`webrtc::RtpState`). -/
structure RtpState where
  val : Nat
deriving DecidableEq, Repr

/-- Association-list lookup; models `std::map::find`. -/
def alookup {α β : Type} [DecidableEq α] : List (α × β) → α → Option β
  | [], _ => none
  | kv :: rest, k => if kv.1 = k then some kv.2 else alookup rest k

/-- Association-list store; models `std::map::operator[]` assignment
(overwrite the existing entry for the key, or append a new entry). -/
def aset {α β : Type} [DecidableEq α] : List (α × β) → α → β → List (α × β)
  | [], k, v => [(k, v)]
  | kv :: rest, k, v => if kv.1 = k then (k, v) :: rest else kv :: aset rest k v

/-- `webrtc::AudioSendStream::Config` restricted to what `Call` reads:
`config.rtp.ssrc`. -/
structure AudioSendStream where
  id : StreamId
  ssrc : Ssrc
deriving DecidableEq, Repr

/-- `webrtc::AudioReceiveStream::Config` restricted to what `Call` reads. -/
structure AudioReceiveConfig where
  remote_ssrc : Ssrc
  sync_group : String
  voe_channel_id : Int
deriving DecidableEq, Repr

structure AudioReceiveStream where
  id : StreamId
  config : AudioReceiveConfig
deriving DecidableEq, Repr

/-- `webrtc::VideoSendStream::Config` restricted to what `Call` reads:
`config.rtp.ssrcs`. -/
structure VideoSendStream where
  id : StreamId
  ssrcs : List Ssrc
deriving DecidableEq, Repr

/-- `webrtc::VideoReceiveStream::Config` restricted to what `Call` reads:
`rtp.remote_ssrc`, the RTX map (payload type keyed) and `sync_group`. -/
structure VideoReceiveConfig where
  remote_ssrc : Ssrc
  rtx : List (Nat × Ssrc)
  sync_group : String
deriving DecidableEq, Repr

structure VideoReceiveStream where
  id : StreamId
  config : VideoReceiveConfig
deriving DecidableEq, Repr

/-- `webrtc::Call::Config::BitrateConfig`. -/
structure BitrateConfig where
  min_bitrate_bps : Int
  start_bitrate_bps : Int
  max_bitrate_bps : Int
deriving DecidableEq, Repr

/-- Observable side effects of the Call operations. -/
inductive Event
  | signalNetwork (stream : StreamId) (state : NetworkState)
  | deliverRtp (stream : StreamId)
  | deliverRtcpRecv (stream : StreamId)
  | deliverRtcpSend (stream : StreamId)
  | setBweBitrates (minBps startBps maxBps : Int)
  | setSyncChannel (stream : StreamId) (channel : Int)
deriving DecidableEq, Repr

/-- The mutable state of `webrtc::internal::Call`. -/
structure CallState where
  network_enabled : Bool
  bitrate_config : BitrateConfig
  audio_send_ssrcs : List (Ssrc × AudioSendStream)
  audio_receive_ssrcs : List (Ssrc × AudioReceiveStream)
  video_send_ssrcs : List (Ssrc × VideoSendStream)
  video_receive_ssrcs : List (Ssrc × VideoReceiveStream)
  video_send_streams : List VideoSendStream
  video_receive_streams : List VideoReceiveStream
  sync_stream_mapping : List (String × AudioReceiveStream)
  suspended_video_send_ssrcs : List (Ssrc × RtpState)
  has_voice_engine : Bool
deriving DecidableEq, Repr

/-- Initial state of a freshly constructed Call (no voice engine),
with the default start bitrate `kDefaultStartBitrateBps = 300000`. -/
def emptyCallState : CallState where
  network_enabled := true
  bitrate_config := { min_bitrate_bps := 0, start_bitrate_bps := 300000, max_bitrate_bps := -1 }
  audio_send_ssrcs := []
  audio_receive_ssrcs := []
  video_send_ssrcs := []
  video_receive_ssrcs := []
  video_send_streams := []
  video_receive_streams := []
  sync_stream_mapping := []
  suspended_video_send_ssrcs := []
  has_voice_engine := false

/-- `std::set::insert`: add the element if it is not already present. -/
def insertStream {α : Type} [DecidableEq α] (l : List α) (x : α) : List α :=
  if x ∈ l then l else l ++ [x]

/-- `Call::ConfigureSync`, audio-anchor election: use the stream already in
`sync_stream_mapping_`, otherwise scan `audio_receive_ssrcs_` for the first
stream whose `sync_group` matches (the source logs a warning and keeps the
first on finding a second). -/
def electAnchor (st : CallState) (g : String) : Option AudioReceiveStream :=
  match alookup st.sync_stream_mapping g with
  | some a => some a
  | none =>
    match st.audio_receive_ssrcs.find? (fun kv => decide (kv.2.config.sync_group = g)) with
    | some kv => some kv.2
    | none => none

/-- The video loop of `Call::ConfigureSync`: walk `video_receive_streams_`
counting streams of the group; bind the first to the anchor channel when an
anchor exists, unbind (`SetSyncChannel(voice_engine, -1)`) every other one. -/
def syncVideosAux (g : String) (anchor : Option AudioReceiveStream) :
    List VideoReceiveStream → Nat → List Event
  | [], _ => []
  | v :: rest, num =>
    if v.config.sync_group = g then
      (match anchor with
       | some a =>
         if num + 1 = 1 then Event.setSyncChannel v.id a.config.voe_channel_id
         else Event.setSyncChannel v.id (-1)
       | none => Event.setSyncChannel v.id (-1)) :: syncVideosAux g anchor rest (num + 1)
    else
      syncVideosAux g anchor rest num

/-- `Call::ConfigureSync(sync_group)`. -/
def configureSync (st : CallState) (g : String) : CallState × List Event :=
  if st.has_voice_engine = false ∨ g = "" then (st, [])
  else
    match electAnchor st g with
    | some a =>
      ({ st with sync_stream_mapping := aset st.sync_stream_mapping g a },
       syncVideosAux g (some a) st.video_receive_streams 0)
    | none => (st, syncVideosAux g none st.video_receive_streams 0)

/-- `Call::CreateAudioSendStream`: index the SSRC; if the network is down,
signal `kNetworkDown` to the new stream before returning. -/
def createAudioSendStream (st : CallState) (s : AudioSendStream) :
    CallState × List Event :=
  ({ st with audio_send_ssrcs := aset st.audio_send_ssrcs s.ssrc s },
   if st.network_enabled then [] else [Event.signalNetwork s.id NetworkState.down])

/-- `Call::DestroyAudioSendStream`: erase the stream's SSRC entry. -/
def destroyAudioSendStream (st : CallState) (s : AudioSendStream) : CallState :=
  { st with audio_send_ssrcs := st.audio_send_ssrcs.filter (fun kv => decide (kv.1 ≠ s.ssrc)) }

/-- `Call::CreateAudioReceiveStream`: index the remote SSRC and run
`ConfigureSync`.  The source performs no network-state notification here. -/
def createAudioReceiveStream (st : CallState) (s : AudioReceiveStream) :
    CallState × List Event :=
  configureSync
    { st with audio_receive_ssrcs := aset st.audio_receive_ssrcs s.config.remote_ssrc s }
    s.config.sync_group

/-- `Call::DestroyAudioReceiveStream`: erase the SSRC entry; if the stream is
the current sync anchor of its group, drop the anchor and rerun
`ConfigureSync`. -/
def destroyAudioReceiveStream (st : CallState) (s : AudioReceiveStream) :
    CallState × List Event :=
  let st1 : CallState :=
    { st with audio_receive_ssrcs :=
        st.audio_receive_ssrcs.filter (fun kv => decide (kv.1 ≠ s.config.remote_ssrc)) }
  match alookup st1.sync_stream_mapping s.config.sync_group with
  | some a =>
    if a = s then
      configureSync
        { st1 with sync_stream_mapping :=
            st1.sync_stream_mapping.filter (fun kv => decide (kv.1 ≠ s.config.sync_group)) }
        s.config.sync_group
    else (st1, [])
  | none => (st1, [])

/-- `Call::CreateVideoSendStream`: index every configured SSRC, add to the
send-stream set; if the network is down, signal `kNetworkDown`. -/
def createVideoSendStream (st : CallState) (s : VideoSendStream) :
    CallState × List Event :=
  ({ st with
      video_send_ssrcs := s.ssrcs.foldl (fun m ssrc => aset m ssrc s) st.video_send_ssrcs,
      video_send_streams := insertStream st.video_send_streams s },
   if st.network_enabled then [] else [Event.signalNetwork s.id NetworkState.down])

/-- Merge a `GetRtpStates` snapshot into `suspended_video_send_ssrcs_`
(the source loops `suspended_video_send_ssrcs_[it->first] = it->second`). -/
def mergeRtpStates (base snap : List (Ssrc × RtpState)) : List (Ssrc × RtpState) :=
  snap.foldl (fun m kv => aset m kv.1 kv.2) base

/-- `Call::DestroyVideoSendStream`: drop every index entry pointing at the
stream, remove it from the set, and merge its `GetRtpStates()` snapshot
(passed in, since `VideoSendStream` is an external collaborator) into the
suspended-SSRC map. -/
def destroyVideoSendStream (st : CallState) (s : VideoSendStream)
    (rtpStates : List (Ssrc × RtpState)) : CallState :=
  { st with
    video_send_ssrcs := st.video_send_ssrcs.filter (fun kv => decide (kv.2 ≠ s)),
    video_send_streams := st.video_send_streams.filter (fun x => decide (x ≠ s)),
    suspended_video_send_ssrcs := mergeRtpStates st.suspended_video_send_ssrcs rtpStates }

/-- `Call::CreateVideoReceiveStream`: index the remote SSRC and, when the RTX
map is non-empty, the SSRC of its first entry; add to the receive-stream set;
run `ConfigureSync`; if the network is down, signal `kNetworkDown`. -/
def createVideoReceiveStream (st : CallState) (s : VideoReceiveStream) :
    CallState × List Event :=
  let m1 := aset st.video_receive_ssrcs s.config.remote_ssrc s
  let m2 :=
    match s.config.rtx with
    | [] => m1
    | kv :: _ => aset m1 kv.2 s
  let st1 : CallState :=
    { st with
      video_receive_ssrcs := m2,
      video_receive_streams := insertStream st.video_receive_streams s }
  let res := configureSync st1 s.config.sync_group
  (res.1,
   res.2 ++ (if st.network_enabled then [] else [Event.signalNetwork s.id NetworkState.down]))

/-- `Call::DestroyVideoReceiveStream`: drop all (one or two) index entries
pointing at the stream, remove it from the set, rerun `ConfigureSync` for its
group. -/
def destroyVideoReceiveStream (st : CallState) (s : VideoReceiveStream) :
    CallState × List Event :=
  configureSync
    { st with
      video_receive_ssrcs := st.video_receive_ssrcs.filter (fun kv => decide (kv.2 ≠ s)),
      video_receive_streams := st.video_receive_streams.filter (fun x => decide (x ≠ s)) }
    s.config.sync_group

/-- `Call::SetBitrateConfig`: when the stored triple already matches — a
non-positive `start_bitrate_bps` matches any stored start — return without
doing anything; otherwise store the new config and call
`SetBweBitrates(min, start, max)` on the congestion controller. -/
def setBitrateConfig (st : CallState) (cfg : BitrateConfig) : CallState × List Event :=
  if st.bitrate_config.min_bitrate_bps = cfg.min_bitrate_bps ∧
     (cfg.start_bitrate_bps ≤ 0 ∨
      st.bitrate_config.start_bitrate_bps = cfg.start_bitrate_bps) ∧
     st.bitrate_config.max_bitrate_bps = cfg.max_bitrate_bps then
    (st, [])
  else
    ({ st with bitrate_config := cfg },
     [Event.setBweBitrates cfg.min_bitrate_bps cfg.start_bitrate_bps cfg.max_bitrate_bps])

/-- Boolean form of the suppression condition of `Call::SetBitrateConfig`. -/
def bitrateMatches (old new : BitrateConfig) : Bool :=
  decide (old.min_bitrate_bps = new.min_bitrate_bps) &&
  (decide (new.start_bitrate_bps ≤ 0) ||
   decide (old.start_bitrate_bps = new.start_bitrate_bps)) &&
  decide (old.max_bitrate_bps = new.max_bitrate_bps)

/-- `Call::SignalNetworkState`: update `network_enabled_` and broadcast the
state to every audio send, video send and video receive stream (the source
does not broadcast to audio receive streams). -/
def signalNetworkState (st : CallState) (s : NetworkState) : CallState × List Event :=
  ({ st with network_enabled := decide (s = NetworkState.up) },
   st.audio_send_ssrcs.map (fun kv => Event.signalNetwork kv.2.id s) ++
     st.video_send_ssrcs.map (fun kv => Event.signalNetwork kv.2.id s) ++
     st.video_receive_ssrcs.map (fun kv => Event.signalNetwork kv.2.id s))

/-- Big-endian 32-bit read at byte offset 8 (`ByteReader::ReadBigEndian` on
`&packet[8]`); this is the RTP SSRC field. -/
def readBigEndian32 (packet : List Nat) : Nat :=
  packet.getD 8 0 * 2 ^ 24 + packet.getD 9 0 * 2 ^ 16 +
    packet.getD 10 0 * 2 ^ 8 + packet.getD 11 0

/-- The audio lookup step of `Call::DeliverRtp`: only performed when the
media-type hint is `ANY` or `AUDIO`. -/
def audioRtpCandidate (st : CallState) (media : MediaType) (ssrc : Ssrc) :
    Option AudioReceiveStream :=
  if media = MediaType.any ∨ media = MediaType.audio then
    alookup st.audio_receive_ssrcs ssrc
  else none

/-- The video lookup step of `Call::DeliverRtp`: only performed when the
media-type hint is `ANY` or `VIDEO`. -/
def videoRtpCandidate (st : CallState) (media : MediaType) (ssrc : Ssrc) :
    Option VideoReceiveStream :=
  if media = MediaType.any ∨ media = MediaType.video then
    alookup st.video_receive_ssrcs ssrc
  else none

/-- `Call::DeliverRtp`. `acceptsRtp s` abstracts the boolean result of stream
`s`'s `DeliverRtp(packet, length, packet_time)`. -/
def deliverRtp (acceptsRtp : StreamId → Bool) (st : CallState) (media : MediaType)
    (packet : List Nat) : DeliveryStatus × List Event :=
  if packet.length < 12 then (DeliveryStatus.packetError, [])
  else
    match audioRtpCandidate st media (readBigEndian32 packet) with
    | some a =>
      ((if acceptsRtp a.id then DeliveryStatus.ok else DeliveryStatus.packetError),
       [Event.deliverRtp a.id])
    | none =>
      match videoRtpCandidate st media (readBigEndian32 packet) with
      | some v =>
        ((if acceptsRtp v.id then DeliveryStatus.ok else DeliveryStatus.packetError),
         [Event.deliverRtp v.id])
      | none => (DeliveryStatus.unknownSsrc, [])

/-- `Call::DeliverRtcp`. Offers the packet to every video receive stream and
then to every video send stream when the media-type hint is `ANY` or `VIDEO`;
`acceptsRtcp s` abstracts stream `s`'s `DeliverRtcp` result. Returns `OK`
exactly when some stream accepted. -/
def deliverRtcp (acceptsRtcp : StreamId → Bool) (st : CallState) (media : MediaType) :
    DeliveryStatus × List Event :=
  let offeredRecv :=
    if media = MediaType.any ∨ media = MediaType.video then st.video_receive_streams else []
  let offeredSend :=
    if media = MediaType.any ∨ media = MediaType.video then st.video_send_streams else []
  let delivered :=
    offeredRecv.any (fun v => acceptsRtcp v.id) || offeredSend.any (fun s => acceptsRtcp s.id)
  ((if delivered then DeliveryStatus.ok else DeliveryStatus.packetError),
   offeredRecv.map (fun v => Event.deliverRtcpRecv v.id) ++
     offeredSend.map (fun s => Event.deliverRtcpSend s.id))

/-- `Call::DeliverPacket`: classify with `RtpHeaderParser::IsRtcp` (abstracted
as the `isRtcp` parameter) and dispatch. -/
def deliverPacket (isRtcp : List Nat → Bool) (acceptsRtcp acceptsRtp : StreamId → Bool)
    (st : CallState) (media : MediaType) (packet : List Nat) :
    DeliveryStatus × List Event :=
  if isRtcp packet then deliverRtcp acceptsRtcp st media
  else deliverRtp acceptsRtp st media packet

/-- Network-state notifications within an event trace. -/
def netSignals (evs : List Event) : List Event :=
  evs.filter (fun e =>
    match e with
    | Event.signalNetwork _ _ => true
    | _ => false)

/-- A `SetSyncChannel` call with a channel other than `-1`, i.e. a binding of
a video stream to an audio anchor. -/
def isBoundEvent : Event → Bool
  | Event.setSyncChannel _ c => decide (c ≠ -1)
  | _ => false

/-- The configuration-thread operations of the Call, for stating invariants
over operation sequences. -/
inductive Op
  | createAudioSend (s : AudioSendStream)
  | destroyAudioSend (s : AudioSendStream)
  | createAudioReceive (s : AudioReceiveStream)
  | destroyAudioReceive (s : AudioReceiveStream)
  | createVideoSend (s : VideoSendStream)
  | destroyVideoSend (s : VideoSendStream) (rtpStates : List (Ssrc × RtpState))
  | createVideoReceive (s : VideoReceiveStream)
  | destroyVideoReceive (s : VideoReceiveStream)
  | setBitrate (cfg : BitrateConfig)
  | signalNetwork (s : NetworkState)
deriving DecidableEq, Repr

/-- State transition of one configuration-thread operation. -/
def step (st : CallState) : Op → CallState
  | Op.createAudioSend s => (createAudioSendStream st s).1
  | Op.destroyAudioSend s => destroyAudioSendStream st s
  | Op.createAudioReceive s => (createAudioReceiveStream st s).1
  | Op.destroyAudioReceive s => (destroyAudioReceiveStream st s).1
  | Op.createVideoSend s => (createVideoSendStream st s).1
  | Op.destroyVideoSend s rtpStates => destroyVideoSendStream st s rtpStates
  | Op.createVideoReceive s => (createVideoReceiveStream st s).1
  | Op.destroyVideoReceive s => (destroyVideoReceiveStream st s).1
  | Op.setBitrate cfg => (setBitrateConfig st cfg).1
  | Op.signalNetwork s => (signalNetworkState st s).1

def runOps (st : CallState) (ops : List Op) : CallState :=
  ops.foldl step st

/-- Both the primary SSRC of `v` and the SSRC `r` resolve to `v` in
`video_receive_ssrcs_`. -/
def rtxIndexed (st : CallState) (v : VideoReceiveStream) (r : Ssrc) : Prop :=
  alookup st.video_receive_ssrcs v.config.remote_ssrc = some v ∧
  alookup st.video_receive_ssrcs r = some v

/-- Side condition under which an operation cannot disturb `v`'s two index
keys: it does not destroy `v`, and any created video receive stream uses
fresh keys (the source `RTC_DCHECK`s primary-key freshness and treats
duplicate SSRC insertion as a programming error). -/
def opKeepsRtxKeys (v : VideoReceiveStream) (r : Ssrc) : Op → Bool
  | Op.destroyVideoReceive w => decide (w ≠ v)
  | Op.createVideoReceive w =>
    decide (w.config.remote_ssrc ≠ v.config.remote_ssrc) &&
    decide (w.config.remote_ssrc ≠ r) &&
    (match w.config.rtx with
     | [] => true
     | kv :: _ => decide (kv.2 ≠ v.config.remote_ssrc) && decide (kv.2 ≠ r))
  | _ => true

/-- Header fields of `webrtc::RTPHeader` that `ViEReceiver`'s encapsulation
handling reads. -/
structure RTPHeader where
  headerLength : Nat
  paddingLength : Nat
  payloadType : Nat
deriving DecidableEq, Repr

/-- The `ViEReceiver` state touched by RTX restoration: the
`restored_packet_` scratch buffer and the `restored_packet_in_use_` flag. -/
structure ReceiverState where
  restored_packet_in_use : Bool
  restored_packet : List Nat
deriving DecidableEq, Repr

/-- Calls `ViEReceiver::ParseAndHandleEncapsulatingHeader` makes on its
collaborators. -/
inductive RxAction
  | fecPacketReceived
  | addRedPacket
  | restoreAttempt
  | recoveredPacket
deriving DecidableEq, Repr

/-- The `RTPPayloadRegistry` queries used by the encapsulation handler:
classification, the ULPFEC payload type, and `RestoreOriginalPacket`
(returning the restored packet bytes, or `none` on failure). -/
structure RegistryModel where
  isRed : RTPHeader → Bool
  isRtx : RTPHeader → Bool
  ulpfec_payload_type : Int
  restoreOriginalPacket : List Nat → RTPHeader → Option (List Nat)

/-- `ViEReceiver::ParseAndHandleEncapsulatingHeader`. `addRedOk` abstracts
`AddReceivedRedPacket == 0`, `processFecOk` abstracts
`ProcessReceivedFec == 0`, `onRecovered` abstracts the recursive
`OnRecoveredPacket` call, and `scratchSize` is `sizeof(restored_packet_)`. -/
def parseAndHandleEncapsulatingHeader (reg : RegistryModel)
    (addRedOk processFecOk : Bool) (onRecovered : List Nat → Bool)
    (scratchSize : Nat) (st : ReceiverState) (packet : List Nat)
    (header : RTPHeader) : Bool × ReceiverState × List RxAction :=
  if reg.isRed header then
    let fecActions :=
      if (packet.getD header.headerLength 0 : Int) = reg.ulpfec_payload_type then
        [RxAction.fecPacketReceived]
      else []
    if addRedOk = false then (false, st, fecActions ++ [RxAction.addRedPacket])
    else (processFecOk, st, fecActions ++ [RxAction.addRedPacket])
  else if reg.isRtx header then
    if header.headerLength + header.paddingLength = packet.length then
      (true, st, [])
    else if packet.length < header.headerLength then (false, st, [])
    else if scratchSize < packet.length then (false, st, [])
    else if st.restored_packet_in_use then (false, st, [])
    else
      match reg.restoreOriginalPacket packet header with
      | none => (false, st, [RxAction.restoreAttempt])
      | some restored =>
        (onRecovered restored,
         { restored_packet_in_use := false, restored_packet := restored },
         [RxAction.restoreAttempt, RxAction.recoveredPacket])
  else (false, st, [])

/-! Concrete inputs used to instantiate the hypothesis-bearing theorems. -/

def allAccept : StreamId → Bool := fun _ => true

def noAccept : StreamId → Bool := fun _ => false

def alwaysRtcp : List Nat → Bool := fun _ => true

def neverRtcp : List Nat → Bool := fun _ => false

def recoverNone : List Nat → Bool := fun _ => false

def netDownState : CallState := { emptyCallState with network_enabled := false }

def audioSendW : AudioSendStream := { id := 21, ssrc := 70 }

def videoSendW : VideoSendStream := { id := 22, ssrcs := [71, 72] }

def videoRecvW : VideoReceiveStream :=
  { id := 23, config := { remote_ssrc := 73, rtx := [], sync_group := "" } }

def audioRecvW : AudioReceiveStream :=
  { id := 24, config := { remote_ssrc := 74, sync_group := "", voe_channel_id := 9 } }

def audioRecvA : AudioReceiveStream :=
  { id := 7, config := { remote_ssrc := 5, sync_group := "", voe_channel_id := 3 } }

def stAudio : CallState := { emptyCallState with audio_receive_ssrcs := [(5, audioRecvA)] }

def pkt12 : List Nat := [0, 0, 0, 0, 0, 0, 0, 0, 0, 0, 0, 5]

def videoRecvC4 : VideoReceiveStream :=
  { id := 11, config := { remote_ssrc := 40, rtx := [], sync_group := "" } }

def videoSendC4 : VideoSendStream := { id := 12, ssrcs := [41] }

def stRtcp : CallState :=
  { emptyCallState with
    video_receive_ssrcs := [(40, videoRecvC4)],
    video_receive_streams := [videoRecvC4],
    video_send_ssrcs := [(41, videoSendC4)],
    video_send_streams := [videoSendC4] }

def cfgStored : BitrateConfig :=
  { min_bitrate_bps := 100000, start_bitrate_bps := 300000, max_bitrate_bps := 1000000 }

def stBitrate : CallState := { emptyCallState with bitrate_config := cfgStored }

def cfgNoop : BitrateConfig :=
  { min_bitrate_bps := 100000, start_bitrate_bps := -1, max_bitrate_bps := 1000000 }

def cfgNew : BitrateConfig :=
  { min_bitrate_bps := 200000, start_bitrate_bps := 400000, max_bitrate_bps := 1000000 }

def videoSendC6 : VideoSendStream := { id := 13, ssrcs := [100, 101] }

def snapC6 : List (Ssrc × RtpState) := [(100, ⟨55⟩), (101, ⟨56⟩)]

def stC6 : CallState :=
  { emptyCallState with
    video_send_ssrcs := [(100, videoSendC6), (101, videoSendC6)],
    video_send_streams := [videoSendC6],
    suspended_video_send_ssrcs := [(100, ⟨1⟩), (200, ⟨2⟩)] }

def videoRecvC7 : VideoReceiveStream :=
  { id := 1, config := { remote_ssrc := 10, rtx := [(96, 11)], sync_group := "" } }

def opsC7 : List Op :=
  [Op.createAudioSend { id := 2, ssrc := 20 },
   Op.createVideoReceive { id := 3, config := { remote_ssrc := 30, rtx := [], sync_group := "" } },
   Op.signalNetwork NetworkState.down,
   Op.destroyVideoReceive { id := 3, config := { remote_ssrc := 30, rtx := [], sync_group := "" } }]

def audioG : AudioReceiveStream :=
  { id := 2, config := { remote_ssrc := 1, sync_group := "g", voe_channel_id := 4 } }

def videoG1 : VideoReceiveStream :=
  { id := 3, config := { remote_ssrc := 30, rtx := [], sync_group := "g" } }

def videoG2 : VideoReceiveStream :=
  { id := 4, config := { remote_ssrc := 31, rtx := [], sync_group := "g" } }

def stSync : CallState :=
  { emptyCallState with
    has_voice_engine := true,
    audio_receive_ssrcs := [(1, audioG)],
    video_receive_streams := [videoG1, videoG2] }

def regRtx : RegistryModel :=
  { isRed := fun _ => false,
    isRtx := fun _ => true,
    ulpfec_payload_type := -1,
    restoreOriginalPacket := fun _ _ => none }

def hdrRtx : RTPHeader := { headerLength := 12, paddingLength := 4, payloadType := 97 }

def rxIdle : ReceiverState := { restored_packet_in_use := false, restored_packet := [] }

def pkt16 : List Nat := List.replicate 16 0

/-! ## Association-list lemmas -/

theorem alookup_aset_self {α β : Type} [DecidableEq α] (m : List (α × β)) (k : α) (v : β) :
    alookup (aset m k v) k = some v := by
  induction m with
  | nil => simp [aset, alookup]
  | cons kv rest ih =>
    by_cases h : kv.1 = k
    · simp [aset, alookup, h]
    · simp [aset, alookup, h, ih]

theorem alookup_aset_ne {α β : Type} [DecidableEq α] (m : List (α × β)) (k k' : α) (v : β)
    (h : k ≠ k') : alookup (aset m k' v) k = alookup m k := by
  have h' : ¬k' = k := fun he => h he.symm
  induction m with
  | nil => simp [aset, alookup, h']
  | cons kv rest ih =>
    by_cases h1 : kv.1 = k'
    · simp [aset, alookup, h1, h']
    · simp only [aset, if_neg h1]
      by_cases h2 : kv.1 = k
      · simp [alookup, h2]
      · simp [alookup, h2, ih]

theorem alookup_filter_val_ne {α β : Type} [DecidableEq α] [DecidableEq β]
    (m : List (α × β)) (k : α) (v w : β) (hv : alookup m k = some v) (hne : v ≠ w) :
    alookup (m.filter (fun kv => decide (kv.2 ≠ w))) k = some v := by
  induction m with
  | nil => simp [alookup] at hv
  | cons kv rest ih =>
    by_cases hk : kv.1 = k
    · rw [alookup, if_pos hk] at hv
      have hvv : kv.2 = v := by injection hv
      rw [List.filter_cons, if_pos (by simp [hvv, hne])]
      rw [alookup, if_pos hk, hvv]
    · rw [alookup, if_neg hk] at hv
      rw [List.filter_cons]
      by_cases hw : kv.2 = w
      · rw [if_neg (by simp [hw])]
        exact ih hv
      · rw [if_pos (by simp [hw])]
        rw [alookup, if_neg hk]
        exact ih hv

theorem alookup_eq_none_of_not_mem {α β : Type} [DecidableEq α]
    (m : List (α × β)) (k : α) (h : k ∉ m.map Prod.fst) : alookup m k = none := by
  induction m with
  | nil => rfl
  | cons kv rest ih =>
    simp only [List.map_cons, List.mem_cons] at h
    push_neg at h
    rw [alookup, if_neg (fun he => h.1 he.symm)]
    exact ih h.2

theorem alookup_merge_of_none {base snap : List (Ssrc × RtpState)} {k : Ssrc}
    (h : alookup snap k = none) :
    alookup (mergeRtpStates base snap) k = alookup base k := by
  induction snap generalizing base with
  | nil => rfl
  | cons kv rest ih =>
    rw [alookup] at h
    by_cases hk : kv.1 = k
    · rw [if_pos hk] at h; exact absurd h (by simp)
    · rw [if_neg hk] at h
      show alookup (mergeRtpStates (aset base kv.1 kv.2) rest) k = alookup base k
      rw [ih h, alookup_aset_ne base k kv.1 kv.2 (fun he => hk he.symm)]

theorem alookup_merge_of_some {base snap : List (Ssrc × RtpState)} {k : Ssrc} {rv : RtpState}
    (hnd : (snap.map Prod.fst).Nodup) (h : alookup snap k = some rv) :
    alookup (mergeRtpStates base snap) k = some rv := by
  induction snap generalizing base with
  | nil => simp [alookup] at h
  | cons kv rest ih =>
    rw [alookup] at h
    rw [List.map_cons, List.nodup_cons] at hnd
    by_cases hk : kv.1 = k
    · rw [if_pos hk] at h
      have hv : kv.2 = rv := by injection h
      have hnone : alookup rest k = none :=
        alookup_eq_none_of_not_mem rest k (by rw [← hk]; exact hnd.1)
      show alookup (mergeRtpStates (aset base kv.1 kv.2) rest) k = some rv
      rw [alookup_merge_of_none hnone, hk, hv, alookup_aset_self]
    · rw [if_neg hk] at h
      exact ih hnd.2 h

/-! ## Claim C2 -/

/-- Claim C2: a buffer classified as RTP whose length is below the minimum
RTP header size of 12 bytes is rejected with `PacketError`, and no stream's
`DeliverRtp` is invoked (the event trace is empty, so no SSRC lookup result
is ever acted on). -/
theorem claim_c2_short_rtp_rejected (isRtcp : List Nat → Bool)
    (acceptsRtcp acceptsRtp : StreamId → Bool) (st : CallState) (media : MediaType)
    (packet : List Nat) (hc : isRtcp packet = false) (hlen : packet.length < 12) :
    deliverPacket isRtcp acceptsRtcp acceptsRtp st media packet =
      (DeliveryStatus.packetError, []) := by
  simp [deliverPacket, hc, deliverRtp, hlen]

theorem claim_c2_witness :
    neverRtcp [0] = false ∧ ([0] : List Nat).length < 12 ∧
    deliverPacket neverRtcp allAccept allAccept emptyCallState MediaType.any [0] =
      (DeliveryStatus.packetError, []) :=
  ⟨rfl, by decide,
   claim_c2_short_rtp_rejected neverRtcp allAccept allAccept emptyCallState MediaType.any
     [0] rfl (by decide)⟩

/-! ## Claim C10 -/

/-- Claim C10: a buffer classified as RTCP delivered with media type `AUDIO`
is offered to no stream at all (both fan-out loops are guarded by
`media_type == ANY || media_type == VIDEO`) and the result is always
`PacketError`. -/
theorem claim_c10_audio_rtcp_dropped (isRtcp : List Nat → Bool)
    (acceptsRtcp acceptsRtp : StreamId → Bool) (st : CallState) (packet : List Nat)
    (hc : isRtcp packet = true) :
    deliverPacket isRtcp acceptsRtcp acceptsRtp st MediaType.audio packet =
      (DeliveryStatus.packetError, []) := by
  simp [deliverPacket, hc, deliverRtcp]

theorem claim_c10_witness :
    alwaysRtcp [0] = true ∧
    deliverPacket alwaysRtcp allAccept allAccept stRtcp MediaType.audio [0] =
      (DeliveryStatus.packetError, []) :=
  ⟨rfl, claim_c10_audio_rtcp_dropped alwaysRtcp allAccept allAccept stRtcp [0] rfl⟩

/-! ## Claim C9 -/

/-- Claim C9: an RTX-classified packet whose total length equals RTP header
length plus padding length is silently accepted: the handler returns `true`,
performs no restoration attempt, and leaves the scratch buffer and the
`restored_packet_in_use` flag untouched. -/
theorem claim_c9_rtx_keepalive (reg : RegistryModel) (addRedOk processFecOk : Bool)
    (onRecovered : List Nat → Bool) (scratchSize : Nat) (st : ReceiverState)
    (packet : List Nat) (header : RTPHeader)
    (hred : reg.isRed header = false) (hrtx : reg.isRtx header = true)
    (hlen : header.headerLength + header.paddingLength = packet.length) :
    parseAndHandleEncapsulatingHeader reg addRedOk processFecOk onRecovered scratchSize
      st packet header = (true, st, []) := by
  simp [parseAndHandleEncapsulatingHeader, hred, hrtx, hlen]

theorem claim_c9_witness :
    regRtx.isRed hdrRtx = false ∧ regRtx.isRtx hdrRtx = true ∧
    hdrRtx.headerLength + hdrRtx.paddingLength = pkt16.length ∧
    parseAndHandleEncapsulatingHeader regRtx true true recoverNone 1500 rxIdle pkt16 hdrRtx =
      (true, rxIdle, []) :=
  ⟨rfl, rfl, by decide,
   claim_c9_rtx_keepalive regRtx true true recoverNone 1500 rxIdle pkt16 hdrRtx rfl rfl
     (by decide)⟩

/-! ## Claim C5 -/

theorem bitrateMatches_iff (old new : BitrateConfig) :
    bitrateMatches old new = true ↔
      (old.min_bitrate_bps = new.min_bitrate_bps ∧
       (new.start_bitrate_bps ≤ 0 ∨ old.start_bitrate_bps = new.start_bitrate_bps) ∧
       old.max_bitrate_bps = new.max_bitrate_bps) := by
  simp [bitrateMatches, and_assoc]

/-- Claim C5: `SetBitrateConfig` with a triple matching the stored config —
a non-positive start matching any stored start — changes nothing: the state
is returned unchanged and no `SetBweBitrates` call happens. Otherwise the
stored config becomes the new triple and exactly one `SetBweBitrates` call is
made, with the new `(min, start, max)`. -/
theorem claim_c5_bitrate_suppression (st : CallState) (cfg : BitrateConfig) :
    (bitrateMatches st.bitrate_config cfg = true →
      setBitrateConfig st cfg = (st, [])) ∧
    (bitrateMatches st.bitrate_config cfg = false →
      (setBitrateConfig st cfg).1.bitrate_config = cfg ∧
      (setBitrateConfig st cfg).2 =
        [Event.setBweBitrates cfg.min_bitrate_bps cfg.start_bitrate_bps
          cfg.max_bitrate_bps]) := by
  constructor
  · intro h
    rw [setBitrateConfig, if_pos ((bitrateMatches_iff st.bitrate_config cfg).mp h)]
  · intro h
    have hc : ¬(st.bitrate_config.min_bitrate_bps = cfg.min_bitrate_bps ∧
        (cfg.start_bitrate_bps ≤ 0 ∨
          st.bitrate_config.start_bitrate_bps = cfg.start_bitrate_bps) ∧
        st.bitrate_config.max_bitrate_bps = cfg.max_bitrate_bps) := by
      intro hcc
      rw [(bitrateMatches_iff st.bitrate_config cfg).mpr hcc] at h
      exact Bool.noConfusion h
    rw [setBitrateConfig, if_neg hc]
    exact ⟨rfl, rfl⟩

theorem claim_c5_witness :
    bitrateMatches stBitrate.bitrate_config cfgNoop = true ∧
    setBitrateConfig stBitrate cfgNoop = (stBitrate, []) ∧
    bitrateMatches stBitrate.bitrate_config cfgNew = false ∧
    (setBitrateConfig stBitrate cfgNew).2 =
      [Event.setBweBitrates 200000 400000 1000000] :=
  ⟨by decide, (claim_c5_bitrate_suppression stBitrate cfgNoop).1 (by decide), by decide,
   ((claim_c5_bitrate_suppression stBitrate cfgNew).2 (by decide)).2⟩

/-! ## Claim C4 -/

/-- Claim C4: an RTCP-classified buffer delivered with media type `VIDEO` or
`ANY` is offered to every video receive stream and then to every video send
stream, and the result is `Ok` exactly when at least one of those streams
accepted the packet, and `PacketError` when none did. -/
theorem claim_c4_rtcp_fanout (isRtcp : List Nat → Bool)
    (acceptsRtcp acceptsRtp : StreamId → Bool) (st : CallState) (media : MediaType)
    (packet : List Nat) (hc : isRtcp packet = true)
    (hm : media = MediaType.any ∨ media = MediaType.video) :
    (deliverPacket isRtcp acceptsRtcp acceptsRtp st media packet).2 =
      st.video_receive_streams.map (fun v => Event.deliverRtcpRecv v.id) ++
        st.video_send_streams.map (fun s => Event.deliverRtcpSend s.id) ∧
    ((deliverPacket isRtcp acceptsRtcp acceptsRtp st media packet).1 = DeliveryStatus.ok ↔
      (st.video_receive_streams.any (fun v => acceptsRtcp v.id) ||
        st.video_send_streams.any (fun s => acceptsRtcp s.id)) = true) ∧
    ((st.video_receive_streams.any (fun v => acceptsRtcp v.id) ||
        st.video_send_streams.any (fun s => acceptsRtcp s.id)) = false →
      (deliverPacket isRtcp acceptsRtcp acceptsRtp st media packet).1 =
        DeliveryStatus.packetError) := by
  have hcond : media = MediaType.any ∨ media = MediaType.video := hm
  refine ⟨?_, ?_, ?_⟩
  · simp [deliverPacket, hc, deliverRtcp, if_pos hcond]
  · simp only [deliverPacket, hc, if_true, deliverRtcp, if_pos hcond]
    cases h : (st.video_receive_streams.any (fun v => acceptsRtcp v.id) ||
        st.video_send_streams.any (fun s => acceptsRtcp s.id)) <;> simp [h]
  · intro h
    simp [deliverPacket, hc, deliverRtcp, if_pos hcond, h]

/-! ## Claim C3 -/

/-- Claim C3: for a well-formed RTP buffer (length at least 12) with SSRC `s`
read big-endian at offset 8: when the media hint is `ANY` or `AUDIO` and `s`
is in the audio receive index, exactly that stream's `DeliverRtp` is invoked;
otherwise, when the hint is `ANY` or `VIDEO` and `s` is in the video receive
index, exactly that stream's `DeliverRtp` is invoked; when `s` is in neither
applicable index the result is `UnknownSsrc` and no stream is invoked. -/
theorem claim_c3_rtp_routing (acceptsRtp : StreamId → Bool) (st : CallState)
    (media : MediaType) (packet : List Nat) (h : 12 ≤ packet.length) :
    ((media = MediaType.any ∨ media = MediaType.audio) →
      ∀ a, alookup st.audio_receive_ssrcs (readBigEndian32 packet) = some a →
        (deliverRtp acceptsRtp st media packet).2 = [Event.deliverRtp a.id]) ∧
    ((media = MediaType.any ∨ media = MediaType.video) →
      audioRtpCandidate st media (readBigEndian32 packet) = none →
      ∀ v, alookup st.video_receive_ssrcs (readBigEndian32 packet) = some v →
        (deliverRtp acceptsRtp st media packet).2 = [Event.deliverRtp v.id]) ∧
    (audioRtpCandidate st media (readBigEndian32 packet) = none →
      videoRtpCandidate st media (readBigEndian32 packet) = none →
      deliverRtp acceptsRtp st media packet = (DeliveryStatus.unknownSsrc, [])) := by
  have hlt : ¬packet.length < 12 := by omega
  refine ⟨?_, ?_, ?_⟩
  · intro hm a ha
    have hcand : audioRtpCandidate st media (readBigEndian32 packet) = some a := by
      rw [audioRtpCandidate, if_pos hm, ha]
    simp [deliverRtp, hlt, hcand]
  · intro hm hac v hv
    have hcand : videoRtpCandidate st media (readBigEndian32 packet) = some v := by
      rw [videoRtpCandidate, if_pos hm, hv]
    simp [deliverRtp, hlt, hac, hcand]
  · intro hac hvc
    simp [deliverRtp, hlt, hac, hvc]

theorem claim_c3_witness :
    12 ≤ pkt12.length ∧
    (deliverRtp allAccept stAudio MediaType.audio pkt12).2 = [Event.deliverRtp 7] :=
  ⟨by decide,
   (claim_c3_rtp_routing allAccept stAudio MediaType.audio pkt12 (by decide)).1
     (Or.inr rfl) audioRecvA (by decide)⟩

/-! ## Claim C1 -/

theorem netSignals_cons_sync (i : StreamId) (c : Int) (l : List Event) :
    netSignals (Event.setSyncChannel i c :: l) = netSignals l := by
  simp [netSignals]

theorem netSignals_append (a b : List Event) :
    netSignals (a ++ b) = netSignals a ++ netSignals b := by
  simp [netSignals]

theorem netSignals_syncVideosAux (g : String) (anchor : Option AudioReceiveStream)
    (videos : List VideoReceiveStream) (num : Nat) :
    netSignals (syncVideosAux g anchor videos num) = [] := by
  induction videos generalizing num with
  | nil => rfl
  | cons v rest ih =>
    by_cases hm : v.config.sync_group = g
    · cases anchor with
      | some a =>
        by_cases hn : num + 1 = 1 <;>
          simp [syncVideosAux, hm, hn, netSignals_cons_sync, ih]
      | none => simp [syncVideosAux, hm, netSignals_cons_sync, ih]
    · simp [syncVideosAux, hm, ih]

theorem netSignals_configureSync (st : CallState) (g : String) :
    netSignals (configureSync st g).2 = [] := by
  rw [configureSync]
  split
  · rfl
  · split <;> simp [netSignals_syncVideosAux]

theorem netSignals_createVideoReceive (st : CallState) (s : VideoReceiveStream) :
    netSignals (createVideoReceiveStream st s).2 =
      netSignals
        (if st.network_enabled then []
         else [Event.signalNetwork s.id NetworkState.down]) := by
  show netSignals ((configureSync _ _).2 ++ _) = _
  rw [netSignals_append, netSignals_configureSync, List.nil_append]

/-- Claim C1 (counterexample): with the network down, creating an audio
receive stream produces no `SignalNetworkState` notification at all — the
source's `CreateAudioReceiveStream` has no network-state gate — so the claim
that every stream-creating operation notifies `NetworkDown` exactly once
fails on `CreateAudioReceive`. -/
theorem claim_c1_counterexample :
    netDownState.network_enabled = false ∧
    ¬((createAudioReceiveStream netDownState audioRecvW).2.count
        (Event.signalNetwork audioRecvW.id NetworkState.down) = 1) := by
  decide

/-- Claim C1 (amended): with the network down, `CreateAudioSend`,
`CreateVideoSend` and `CreateVideoReceive` each emit exactly one
`SignalNetworkState(NetworkDown)` to the new stream before returning, while
`CreateAudioReceive` emits no network-state notification. -/
theorem claim_c1_network_down_on_create (st : CallState) (h : st.network_enabled = false)
    (a : AudioSendStream) (vs : VideoSendStream) (vr : VideoReceiveStream)
    (ar : AudioReceiveStream) :
    netSignals (createAudioSendStream st a).2 =
      [Event.signalNetwork a.id NetworkState.down] ∧
    netSignals (createVideoSendStream st vs).2 =
      [Event.signalNetwork vs.id NetworkState.down] ∧
    netSignals (createVideoReceiveStream st vr).2 =
      [Event.signalNetwork vr.id NetworkState.down] ∧
    netSignals (createAudioReceiveStream st ar).2 = [] := by
  refine ⟨?_, ?_, ?_, ?_⟩
  · simp [createAudioSendStream, h, netSignals]
  · simp [createVideoSendStream, h, netSignals]
  · rw [netSignals_createVideoReceive, h]
    simp [netSignals]
  · show netSignals (configureSync _ _).2 = []
    exact netSignals_configureSync _ _

theorem claim_c1_witness :
    netDownState.network_enabled = false ∧
    netSignals (createAudioSendStream netDownState audioSendW).2 =
      [Event.signalNetwork 21 NetworkState.down] ∧
    netSignals (createVideoSendStream netDownState videoSendW).2 =
      [Event.signalNetwork 22 NetworkState.down] ∧
    netSignals (createVideoReceiveStream netDownState videoRecvW).2 =
      [Event.signalNetwork 23 NetworkState.down] ∧
    netSignals (createAudioReceiveStream netDownState audioRecvW).2 = [] :=
  ⟨rfl,
   claim_c1_network_down_on_create netDownState rfl audioSendW videoSendW videoRecvW
     audioRecvW⟩

/-! ## Claim C6 -/

/-- Claim C6: after `DestroyVideoSendStream`, every SSRC present in the
`GetRtpStates()` snapshot maps in `suspended_video_send_ssrcs_` to its
snapshot state (covering every configured SSRC, given that the snapshot
covers them), overwriting prior entries; SSRCs absent from the snapshot keep
their previous suspended state. -/
theorem claim_c6_suspended_carryover (st : CallState) (s : VideoSendStream)
    (rtpStates : List (Ssrc × RtpState)) (x : Ssrc)
    (hnd : (rtpStates.map Prod.fst).Nodup)
    (hcover : ∀ y ∈ s.ssrcs, (alookup rtpStates y).isSome = true) :
    (x ∈ s.ssrcs →
      alookup (destroyVideoSendStream st s rtpStates).suspended_video_send_ssrcs x =
        alookup rtpStates x) ∧
    (alookup rtpStates x = none →
      alookup (destroyVideoSendStream st s rtpStates).suspended_video_send_ssrcs x =
        alookup st.suspended_video_send_ssrcs x) := by
  constructor
  · intro hx
    obtain ⟨rv, hrv⟩ := Option.isSome_iff_exists.mp (hcover x hx)
    show alookup (mergeRtpStates st.suspended_video_send_ssrcs rtpStates) x =
      alookup rtpStates x
    rw [hrv]
    exact alookup_merge_of_some hnd hrv
  · intro hx
    show alookup (mergeRtpStates st.suspended_video_send_ssrcs rtpStates) x =
      alookup st.suspended_video_send_ssrcs x
    exact alookup_merge_of_none hx

theorem claim_c6_witness :
    (snapC6.map Prod.fst).Nodup ∧ 100 ∈ videoSendC6.ssrcs ∧
    alookup (destroyVideoSendStream stC6 videoSendC6 snapC6).suspended_video_send_ssrcs
        100 = alookup snapC6 100 :=
  ⟨by decide, by decide,
   (claim_c6_suspended_carryover stC6 videoSendC6 snapC6 100 (by decide) (by decide)).1
     (by decide)⟩

/-! ## Claim C8 -/

theorem syncVideosAux_pos (g : String) (anchor : Option AudioReceiveStream)
    (videos : List VideoReceiveStream) (num : Nat) (h : 1 ≤ num) :
    syncVideosAux g anchor videos num =
      (videos.filter (fun v => decide (v.config.sync_group = g))).map
        (fun w => Event.setSyncChannel w.id (-1)) := by
  induction videos generalizing num with
  | nil => rfl
  | cons v rest ih =>
    by_cases hm : v.config.sync_group = g
    · have hn : ¬num + 1 = 1 := by omega
      cases anchor with
      | some a => simp [syncVideosAux, hm, hn, List.filter_cons, ih (num + 1) (by omega)]
      | none => simp [syncVideosAux, hm, List.filter_cons, ih (num + 1) (by omega)]
    · simp [syncVideosAux, hm, List.filter_cons, ih num h]

theorem syncVideosAux_none (g : String) (videos : List VideoReceiveStream) (num : Nat) :
    syncVideosAux g none videos num =
      (videos.filter (fun v => decide (v.config.sync_group = g))).map
        (fun w => Event.setSyncChannel w.id (-1)) := by
  induction videos generalizing num with
  | nil => rfl
  | cons v rest ih =>
    by_cases hm : v.config.sync_group = g
    · simp [syncVideosAux, hm, List.filter_cons, ih (num + 1)]
    · simp [syncVideosAux, hm, List.filter_cons, ih num]

theorem syncVideosAux_zero_some (g : String) (a : AudioReceiveStream)
    (videos : List VideoReceiveStream) :
    syncVideosAux g (some a) videos 0 =
      (match videos.filter (fun v => decide (v.config.sync_group = g)) with
       | [] => []
       | v :: rest =>
         Event.setSyncChannel v.id a.config.voe_channel_id ::
           rest.map (fun w => Event.setSyncChannel w.id (-1))) := by
  induction videos with
  | nil => rfl
  | cons v rest ih =>
    by_cases hm : v.config.sync_group = g
    · simp [syncVideosAux, hm, List.filter_cons,
        syncVideosAux_pos g (some a) rest 1 (by omega)]
    · simp [syncVideosAux, hm, List.filter_cons, ih]

theorem countBound_unbind_map (l : List VideoReceiveStream) :
    ((l.map (fun w => Event.setSyncChannel w.id (-1))).countP isBoundEvent) = 0 := by
  induction l with
  | nil => rfl
  | cons v rest ih => simp [List.countP_cons, isBoundEvent, ih]

theorem countP_cons_le_one (e : Event) (l : List Event)
    (h : l.countP isBoundEvent = 0) : (e :: l).countP isBoundEvent ≤ 1 := by
  rw [List.countP_cons, h]
  split <;> omega

theorem countBound_syncVideosAux (g : String) (anchor : Option AudioReceiveStream)
    (videos : List VideoReceiveStream) (num : Nat) :
    (syncVideosAux g anchor videos num).countP isBoundEvent ≤ 1 := by
  induction videos generalizing num with
  | nil => simp [syncVideosAux]
  | cons v rest ih =>
    by_cases hm : v.config.sync_group = g
    · have htail : (syncVideosAux g anchor rest (num + 1)).countP isBoundEvent = 0 := by
        rw [syncVideosAux_pos g anchor rest (num + 1) (by omega)]
        exact countBound_unbind_map _
      simp only [syncVideosAux, if_pos hm]
      exact countP_cons_le_one _ _ htail
    · simp only [syncVideosAux, if_neg hm]
      exact ih num

/-- Claim C8: a run of `ConfigureSync` for group `g` emits a `SetSyncChannel`
call for each video receive stream of the group: the first enumerated gets
the elected audio anchor's voice-engine channel when an anchor exists, every
other one (and every one when no anchor exists) is unbound with channel `-1`;
hence at most one video stream per group ends up bound to an audio channel. -/
theorem claim_c8_sync_single_bind (st : CallState) (g : String)
    (hv : st.has_voice_engine = true) (hg : g ≠ "") :
    (configureSync st g).2 =
      (match electAnchor st g,
             st.video_receive_streams.filter (fun v => decide (v.config.sync_group = g)) with
       | some a, v :: rest =>
         Event.setSyncChannel v.id a.config.voe_channel_id ::
           rest.map (fun w => Event.setSyncChannel w.id (-1))
       | _, vs => vs.map (fun w => Event.setSyncChannel w.id (-1))) ∧
    (configureSync st g).2.countP isBoundEvent ≤ 1 := by
  have hevs : (configureSync st g).2 =
      syncVideosAux g (electAnchor st g) st.video_receive_streams 0 := by
    have hcond : ¬(st.has_voice_engine = false ∨ g = "") := by simp [hv, hg]
    rw [configureSync, if_neg hcond]
    rcases electAnchor st g with _ | a <;> rfl
  constructor
  · rw [hevs]
    rcases he : electAnchor st g with _ | a
    · rw [syncVideosAux_none]
    · rw [syncVideosAux_zero_some]
      rcases hf : st.video_receive_streams.filter
          (fun v => decide (v.config.sync_group = g)) with _ | ⟨v, rest⟩ <;>
        simp [hf]
  · rw [hevs]
    exact countBound_syncVideosAux _ _ _ _

theorem claim_c8_witness :
    stSync.has_voice_engine = true ∧
    (configureSync stSync "g").2 =
      [Event.setSyncChannel 3 4, Event.setSyncChannel 4 (-1)] ∧
    (configureSync stSync "g").2.countP isBoundEvent ≤ 1 := by
  have h := claim_c8_sync_single_bind stSync "g" rfl (by decide)
  exact ⟨rfl, h.1.trans (by decide), h.2⟩

/-! ## Claim C7 -/

theorem configureSync_preserves_vrs (st : CallState) (g : String) :
    (configureSync st g).1.video_receive_ssrcs = st.video_receive_ssrcs := by
  rw [configureSync]
  split
  · rfl
  · split <;> rfl

theorem destroyAudioReceive_preserves_vrs (st : CallState) (s : AudioReceiveStream) :
    (destroyAudioReceiveStream st s).1.video_receive_ssrcs = st.video_receive_ssrcs := by
  rw [destroyAudioReceiveStream]
  split
  · split
    · rw [configureSync_preserves_vrs]
    · rfl
  · rfl

theorem step_preserves_rtxIndexed (v : VideoReceiveStream) (r : Ssrc) (st : CallState)
    (op : Op) (hop : opKeepsRtxKeys v r op = true) (h : rtxIndexed st v r) :
    rtxIndexed (step st op) v r := by
  obtain ⟨h1, h2⟩ := h
  cases op with
  | createAudioSend s => exact ⟨h1, h2⟩
  | destroyAudioSend s => exact ⟨h1, h2⟩
  | createAudioReceive s =>
    have hvrs : (step st (Op.createAudioReceive s)).video_receive_ssrcs
        = st.video_receive_ssrcs := configureSync_preserves_vrs _ _
    refine ⟨?_, ?_⟩ <;> rw [hvrs]
    · exact h1
    · exact h2
  | destroyAudioReceive s =>
    have hvrs : (step st (Op.destroyAudioReceive s)).video_receive_ssrcs
        = st.video_receive_ssrcs := destroyAudioReceive_preserves_vrs _ _
    exact ⟨by rw [hvrs]; exact h1, by rw [hvrs]; exact h2⟩
  | createVideoSend s => exact ⟨h1, h2⟩
  | destroyVideoSend s rtpStates => exact ⟨h1, h2⟩
  | createVideoReceive w =>
    simp only [opKeepsRtxKeys] at hop
    have hvrs : (step st (Op.createVideoReceive w)).video_receive_ssrcs
        = (match w.config.rtx with
           | [] => aset st.video_receive_ssrcs w.config.remote_ssrc w
           | kv :: _ =>
             aset (aset st.video_receive_ssrcs w.config.remote_ssrc w) kv.2 w) :=
      configureSync_preserves_vrs _ _
    cases hrtx : w.config.rtx with
    | nil =>
      rw [hrtx] at hop hvrs
      simp only [Bool.and_eq_true, decide_eq_true_eq] at hop
      refine ⟨?_, ?_⟩
      · rw [hvrs, alookup_aset_ne _ _ _ _ (Ne.symm hop.1.1)]
        exact h1
      · rw [hvrs, alookup_aset_ne _ _ _ _ (Ne.symm hop.1.2)]
        exact h2
    | cons kv tail =>
      rw [hrtx] at hop hvrs
      simp only [Bool.and_eq_true, decide_eq_true_eq] at hop
      refine ⟨?_, ?_⟩
      · rw [hvrs, alookup_aset_ne _ _ _ _ (Ne.symm hop.2.1),
          alookup_aset_ne _ _ _ _ (Ne.symm hop.1.1)]
        exact h1
      · rw [hvrs, alookup_aset_ne _ _ _ _ (Ne.symm hop.2.2),
          alookup_aset_ne _ _ _ _ (Ne.symm hop.1.2)]
        exact h2
  | destroyVideoReceive w =>
    simp only [opKeepsRtxKeys, decide_eq_true_eq] at hop
    have hvrs : (step st (Op.destroyVideoReceive w)).video_receive_ssrcs
        = st.video_receive_ssrcs.filter (fun kv => decide (kv.2 ≠ w)) :=
      configureSync_preserves_vrs _ _
    refine ⟨?_, ?_⟩
    · rw [hvrs]
      exact alookup_filter_val_ne _ _ _ _ h1 (Ne.symm hop)
    · rw [hvrs]
      exact alookup_filter_val_ne _ _ _ _ h2 (Ne.symm hop)
  | setBitrate cfg =>
    have hvrs : (step st (Op.setBitrate cfg)).video_receive_ssrcs
        = st.video_receive_ssrcs := by
      rw [step, setBitrateConfig]
      split <;> rfl
    exact ⟨by rw [hvrs]; exact h1, by rw [hvrs]; exact h2⟩
  | signalNetwork s => exact ⟨h1, h2⟩

theorem runOps_preserves_rtxIndexed (v : VideoReceiveStream) (r : Ssrc) (ops : List Op)
    (st : CallState) (h : rtxIndexed st v r)
    (hops : ∀ op ∈ ops, opKeepsRtxKeys v r op = true) :
    rtxIndexed (runOps st ops) v r := by
  induction ops generalizing st with
  | nil => exact h
  | cons op rest ih =>
    exact ih (step st op)
      (step_preserves_rtxIndexed v r st op (hops op (List.mem_cons_self op rest)) h)
      (fun o ho => hops o (List.mem_cons_of_mem op ho))

/-- Claim C7: creating a video receive stream whose RTX map is non-empty
indexes both its primary SSRC and the first RTX entry's SSRC to the stream,
and this double-key property is preserved by any sequence of Call operations
that does not destroy the stream and creates no video receive stream reusing
either key (the source treats duplicate-SSRC insertion as a programming
error). -/
theorem claim_c7_rtx_double_index (st0 : CallState) (v : VideoReceiveStream)
    (pt : Nat) (r : Ssrc) (rest : List (Nat × Ssrc)) (ops : List Op)
    (hrtx : v.config.rtx = (pt, r) :: rest)
    (hops : ∀ op ∈ ops, opKeepsRtxKeys v r op = true) :
    rtxIndexed (runOps (createVideoReceiveStream st0 v).1 ops) v r := by
  have hvrs : ((createVideoReceiveStream st0 v).1).video_receive_ssrcs
      = aset (aset st0.video_receive_ssrcs v.config.remote_ssrc v) r v := by
    have hbase : ((createVideoReceiveStream st0 v).1).video_receive_ssrcs
        = (match v.config.rtx with
           | [] => aset st0.video_receive_ssrcs v.config.remote_ssrc v
           | kv :: _ =>
             aset (aset st0.video_receive_ssrcs v.config.remote_ssrc v) kv.2 v) :=
      configureSync_preserves_vrs _ _
    rw [hbase, hrtx]
  have h0 : rtxIndexed (createVideoReceiveStream st0 v).1 v r := by
    constructor
    · by_cases hpr : v.config.remote_ssrc = r
      · rw [hvrs, hpr, alookup_aset_self]
      · rw [hvrs, alookup_aset_ne _ _ _ _ hpr, alookup_aset_self]
    · rw [hvrs, alookup_aset_self]
  exact runOps_preserves_rtxIndexed v r ops _ h0 hops

theorem claim_c7_witness :
    videoRecvC7.config.rtx = [(96, 11)] ∧
    rtxIndexed (runOps (createVideoReceiveStream emptyCallState videoRecvC7).1 opsC7)
      videoRecvC7 11 :=
  ⟨rfl,
   claim_c7_rtx_double_index emptyCallState videoRecvC7 96 11 [] opsC7 rfl (by decide)⟩

theorem claim_c4_witness :
    alwaysRtcp [0] = true ∧
    (deliverPacket alwaysRtcp allAccept allAccept stRtcp MediaType.video [0]).2 =
      stRtcp.video_receive_streams.map (fun v => Event.deliverRtcpRecv v.id) ++
        stRtcp.video_send_streams.map (fun s => Event.deliverRtcpSend s.id) ∧
    (deliverPacket alwaysRtcp noAccept allAccept stRtcp MediaType.video [0]).1 =
      DeliveryStatus.packetError := by
  refine ⟨rfl, ?_, ?_⟩
  · exact (claim_c4_rtcp_fanout alwaysRtcp allAccept allAccept stRtcp MediaType.video [0]
      rfl (Or.inr rfl)).1
  · exact (claim_c4_rtcp_fanout alwaysRtcp noAccept allAccept stRtcp MediaType.video [0]
      rfl (Or.inr rfl)).2.2 (by decide)

end WebrtcCall
